import Mathlib

/-!
Shallow embedding of the libratbag driver-dispatch core, translated from
`src/src/libratbag-private.h`.  C pointers to caller- or driver-owned data
are modelled by a type parameter `Ptr`; callbacks whose C return type is
`void` but which have caller-visible effects are modelled as functions into
an observation type (`Obs` for the injected close callback, explicit event
or log lists elsewhere).  Machine integers (`int`, `uint16_t`) are modelled
as `Int` / `Nat`; the claims under study never exercise overflow.
-/

namespace Libratbag

/-- Model of `struct input_id` (bustype/vendor/product/version, each a
16-bit unsigned value in C). -/
structure input_id where
  bustype : Nat
  vendor : Nat
  product : Nat
  version : Nat
deriving DecidableEq

/-- Wildcard sentinel for the bus field, from `#define BUS_ANY 0xffff`. -/
def BUS_ANY : Nat := 0xffff

/-- Wildcard sentinel for the vendor field, from `#define VENDOR_ANY 0xffff`. -/
def VENDOR_ANY : Nat := 0xffff

/-- Wildcard sentinel for the product field, from `#define PRODUCT_ANY 0xffff`. -/
def PRODUCT_ANY : Nat := 0xffff

/-- Wildcard sentinel for the version field, from `#define VERSION_ANY 0xffff`. -/
def VERSION_ANY : Nat := 0xffff

/-- Model of `struct ratbag_id`: a device identity plus the driver-specific
`unsigned long data` payload. -/
structure ratbag_id where
  id : input_id
  data : Nat
deriving DecidableEq

/-- Model of `struct ratbag_button` (refcount, back-reference to the owning
profile modelled as an opaque handle, index, and the two enum
classifications modelled as `Nat`). -/
structure ratbag_button where
  refcount : Int
  profile : Nat
  index : Nat
  type : Nat
  action_type : Nat
deriving DecidableEq

/-- Model of `struct ratbag_profile`.  The `device` back-reference is an
opaque handle (`Nat`), breaking the C pointer cycle; `buttons` is the
owned button list. -/
structure ratbag_profile (Ptr : Type) where
  refcount : Int
  index : Nat
  device : Nat
  buttons : List ratbag_button
  drv_data : Ptr
  user_data : Ptr
  current_dpi : Int

/-- Model of `struct ratbag_driver`.  Each function-pointer field keeps its
C name.  The `struct ratbag_device *` argument of `probe`,
`get_active_profile`, `set_active_profile` and `has_capability` is folded
into the driver value bound to a device (the embedding studies one device
at a time), so those callbacks take only their remaining arguments.
`read_profile` and `read_button` return `void` in C: they are modelled as
returning the updated entity together with the messages they emit to the
logging sink — there is no error component in their result type, mirroring
the absent error channel of the C signature.  `write_profile`,
`write_button`, `set_active_profile`, `get_active_profile` and
`write_resolution_dpi` return a C `int` status. -/
structure ratbag_driver (Ptr : Type) where
  name : String
  table_ids : List ratbag_id
  probe : ratbag_id → Int
  read_profile : ratbag_profile Ptr → Nat → ratbag_profile Ptr × List String
  write_profile : ratbag_profile Ptr → Int
  get_active_profile : Int
  set_active_profile : Nat → Int
  has_capability : Nat → Bool
  read_button : ratbag_button → ratbag_button × List String
  write_button : ratbag_button → Int
  write_resolution_dpi : ratbag_profile Ptr → Int → Int

/-- Model of `struct ratbag_interface`: the two injected restricted-file
operations.  `open_restricted` returns an fd-or-error `int`;
`close_restricted` returns `void` in C, so its caller-visible effect is
modelled by the observation type `Obs`. -/
structure ratbag_interface (Ptr : Type) (Obs : Type) where
  open_restricted : String → Int → Ptr → Int
  close_restricted : Int → Ptr → Obs

/-- Model of `struct ratbag`, the library context: the injected interface,
the caller userdata pointer, the opaque udev handle, the driver registry,
the refcount, and the logging configuration (handler modelled as an opaque
handle). -/
structure ratbag (Ptr : Type) (Obs : Type) where
  interface : ratbag_interface Ptr Obs
  userdata : Ptr
  udev : Nat
  drivers : List (ratbag_driver Ptr)
  refcount : Int
  log_handler : Nat
  log_priority : Nat

/-- Model of `struct ratbag_device`.  udev handles are opaque `Nat`s; the
context back-pointer is embedded by value; `driver` is the bound driver. -/
structure ratbag_device (Ptr : Type) (Obs : Type) where
  name : String
  udev_device : Nat
  udev_hidraw : Nat
  hidraw_fd : Int
  refcount : Int
  ids : input_id
  driver : ratbag_driver Ptr
  ratbag : ratbag Ptr Obs
  num_profiles : Nat
  profiles : List (ratbag_profile Ptr)
  num_buttons : Nat
  drv_data : Ptr

/-- Translation of `ratbag_open_path` from `libratbag-private.h`: it reads
the device's context and forwards path, flags and the context's userdata to
the injected `open_restricted`. -/
def ratbag_open_path {Ptr Obs : Type} (device : ratbag_device Ptr Obs)
    (path : String) (flags : Int) : Int :=
  let ratbag := device.ratbag
  ratbag.interface.open_restricted path flags ratbag.userdata

/-- Translation of `ratbag_close_fd` from `libratbag-private.h`: it forwards
the fd and the context's userdata to the injected `close_restricted`, whose
caller-visible effect is the returned observation. -/
def ratbag_close_fd {Ptr Obs : Type} (device : ratbag_device Ptr Obs)
    (fd : Int) : Obs :=
  let ratbag := device.ratbag
  ratbag.interface.close_restricted fd ratbag.userdata

/-- Translation of `ratbag_set_drv_data`: store the driver-private pointer
on the device. -/
def ratbag_set_drv_data {Ptr Obs : Type} (device : ratbag_device Ptr Obs)
    (drv_data : Ptr) : ratbag_device Ptr Obs :=
  { device with drv_data := drv_data }

/-- Translation of `ratbag_get_drv_data`: read the driver-private pointer
from the device. -/
def ratbag_get_drv_data {Ptr Obs : Type} (device : ratbag_device Ptr Obs) : Ptr :=
  device.drv_data

/-- Translation of `ratbag_profile_set_drv_data`: store the driver-private
pointer on the profile. -/
def ratbag_profile_set_drv_data {Ptr : Type} (profile : ratbag_profile Ptr)
    (drv_data : Ptr) : ratbag_profile Ptr :=
  { profile with drv_data := drv_data }

/-- Translation of `ratbag_profile_get_drv_data`: read the driver-private
pointer from the profile. -/
def ratbag_profile_get_drv_data {Ptr : Type} (profile : ratbag_profile Ptr) : Ptr :=
  profile.drv_data

/-- Linux `ENODEV` errno value; `probe` returns `-ENODEV` to mean "not my
device" (header comment on `ratbag_driver.probe`). -/
def ENODEV : Int := 19

/-- Modelled from the spec: the field-wise identity match used by the
matching engine.  The matching function itself lives in `libratbag.c`,
which is not under `src/`; the spec states "a table entry matches the
candidate identity if every field is either equal or the table entry's
field is the wildcard sentinel", using the sentinels defined in the
header. -/
def ratbag_match_id (dev : input_id) (entry : input_id) : Bool :=
  (decide (entry.bustype = BUS_ANY) || decide (entry.bustype = dev.bustype)) &&
  (decide (entry.vendor = VENDOR_ANY) || decide (entry.vendor = dev.vendor)) &&
  (decide (entry.product = PRODUCT_ANY) || decide (entry.product = dev.product)) &&
  (decide (entry.version = VERSION_ANY) || decide (entry.version = dev.version))

theorem ratbag_match_id_refl (dev : input_id) : ratbag_match_id dev dev = true := by
  simp [ratbag_match_id]

/-- Outcome of scanning one driver's identity table. -/
inductive TableScan where
  | bound
  | fatal (code : Int)
  | exhausted
deriving DecidableEq

/-- Modelled from the spec: scan one driver's identity table (the scan loop
lives in `libratbag.c`, not under `src/`).  On a matching entry the
driver's probe runs: `-ENODEV` continues with the remaining entries, any
other negative code aborts the scan as fatal, a non-negative code binds the
driver.  Exhausting the table without binding reports `exhausted`. -/
def scan_table (probe : ratbag_id → Int) (dev : input_id) :
    List ratbag_id → TableScan
  | [] => TableScan.exhausted
  | entry :: rest =>
    if ratbag_match_id dev entry.id then
      if probe entry = -ENODEV then scan_table probe dev rest
      else if probe entry < 0 then TableScan.fatal (probe entry)
      else TableScan.bound
    else scan_table probe dev rest

/-- Result of the matching engine over the whole registry. -/
inductive FindResult where
  | bound (name : String)
  | notFound
  | probeError (code : Int)
deriving DecidableEq

/-- Modelled from the spec: iterate registered drivers in registration
order (`find_driver_and_probe` lives in `libratbag.c`, not under `src/`).
A driver whose table scan binds stops the iteration with that driver; a
fatal probe outcome aborts the whole scan; an exhausted table falls
through to the next driver; an empty registry reports not found. -/
def find_driver {Ptr : Type} : List (ratbag_driver Ptr) → input_id → FindResult
  | [], _ => FindResult.notFound
  | drv :: rest, dev =>
    match scan_table drv.probe dev drv.table_ids with
    | TableScan.bound => FindResult.bound drv.name
    | TableScan.fatal c => FindResult.probeError c
    | TableScan.exhausted => find_driver rest dev

/-- Driver-contract calls observable during a profile activation. -/
inductive ActCall where
  | write_profile (index : Nat)
  | set_active_profile (index : Nat)
deriving DecidableEq

/-- Modelled from the spec: two-phase profile activation (the activation
entry point lives in `libratbag.c`, not under `src/`).  Phase one calls the
driver's `write_profile`; a negative status aborts the activation and is
returned as the result, without entering phase two.  Otherwise phase two
calls the driver's `set_active_profile` with the profile's index and its
status is the result.  The returned list is the trace of driver-contract
calls made, in order. -/
def ratbag_device_set_active_profile {Ptr : Type} (drv : ratbag_driver Ptr)
    (profile : ratbag_profile Ptr) : Int × List ActCall :=
  let rc := drv.write_profile profile
  if rc < 0 then
    (rc, [ActCall.write_profile profile.index])
  else
    (drv.set_active_profile profile.index,
     [ActCall.write_profile profile.index, ActCall.set_active_profile profile.index])

/-- Modelled from the spec: the framework forwards a caller's profile-read
request to the driver's `read_profile` callback (the forwarding code lives
in `libratbag.c`, not under `src/`).  The callback's C return type is
`void`, so the caller receives only the updated profile and the log
messages — the result type has no error component. -/
def ratbag_device_read_profile {Ptr : Type} (drv : ratbag_driver Ptr)
    (profile : ratbag_profile Ptr) (index : Nat) :
    ratbag_profile Ptr × List String :=
  drv.read_profile profile index

/-- Modelled from the spec: the framework forwards a caller's button-read
request to the driver's `read_button` callback, which likewise returns
`void` in C: the caller receives only the updated button and the log
messages. -/
def ratbag_device_read_button {Ptr : Type} (drv : ratbag_driver Ptr)
    (button : ratbag_button) : ratbag_button × List String :=
  drv.read_button button

/-- Observable events of object-graph teardown. -/
inductive TdEvent where
  | button_destroy (index : Nat)
  | profile_destroy (index : Nat)
  | driver_remove
  | device_free
deriving DecidableEq

/-- Modelled from the spec: destroying a button releases it, emitting its
teardown event (the destroy functions live in `libratbag.c`, not under
`src/`). -/
def ratbag_button_destroy (button : ratbag_button) : List TdEvent :=
  [TdEvent.button_destroy button.index]

/-- Teardown of a list of buttons, first to last. -/
def buttons_teardown : List ratbag_button → List TdEvent
  | [] => []
  | b :: rest => ratbag_button_destroy b ++ buttons_teardown rest

/-- Modelled from the spec: a profile's teardown releases its button
sequence first, then the profile itself (spec 4.3). -/
def ratbag_profile_destroy {Ptr : Type} (profile : ratbag_profile Ptr) :
    List TdEvent :=
  buttons_teardown profile.buttons ++ [TdEvent.profile_destroy profile.index]

/-- Teardown of a list of profiles, first to last. -/
def profiles_teardown {Ptr : Type} : List (ratbag_profile Ptr) → List TdEvent
  | [] => []
  | p :: rest => ratbag_profile_destroy p ++ profiles_teardown rest

/-- Modelled from the spec: a device's teardown calls the driver's `remove`
callback, then releases its profile sequence, then frees the device's own
memory (spec 4.3, and the header's comment that `remove` runs right before
the device is unref-ed). -/
def ratbag_device_destroy {Ptr Obs : Type} (device : ratbag_device Ptr Obs) :
    List TdEvent :=
  TdEvent.driver_remove :: (profiles_teardown device.profiles ++ [TdEvent.device_free])

/-- Modelled from the spec: `ref()` increments the entity's refcount and
returns the same handle. -/
def ratbag_device_ref {Ptr Obs : Type} (device : ratbag_device Ptr Obs) :
    ratbag_device Ptr Obs :=
  { device with refcount := device.refcount + 1 }

/-- Modelled from the spec: `unref()` decrements the refcount; on reaching
zero it runs the teardown and releases storage (`none`), otherwise the
entity survives with the decremented count and no teardown event fires. -/
def ratbag_device_unref {Ptr Obs : Type} (device : ratbag_device Ptr Obs) :
    Option (ratbag_device Ptr Obs) × List TdEvent :=
  if device.refcount - 1 = 0 then
    (none, ratbag_device_destroy device)
  else
    (some { device with refcount := device.refcount - 1 }, [])

/-- Modelled from the spec: profile `ref()`. -/
def ratbag_profile_ref {Ptr : Type} (profile : ratbag_profile Ptr) :
    ratbag_profile Ptr :=
  { profile with refcount := profile.refcount + 1 }

/-- Modelled from the spec: profile `unref()`, destroying (buttons first)
when the count reaches zero. -/
def ratbag_profile_unref {Ptr : Type} (profile : ratbag_profile Ptr) :
    Option (ratbag_profile Ptr) × List TdEvent :=
  if profile.refcount - 1 = 0 then
    (none, ratbag_profile_destroy profile)
  else
    (some { profile with refcount := profile.refcount - 1 }, [])

/-- Modelled from the spec: button `ref()`. -/
def ratbag_button_ref (button : ratbag_button) : ratbag_button :=
  { button with refcount := button.refcount + 1 }

/-- Modelled from the spec: button `unref()`, destroying when the count
reaches zero. -/
def ratbag_button_unref (button : ratbag_button) :
    Option ratbag_button × List TdEvent :=
  if button.refcount - 1 = 0 then
    (none, ratbag_button_destroy button)
  else
    (some { button with refcount := button.refcount - 1 }, [])

/-- Classifies the teardown events of a device's children (buttons and
profiles). -/
def child_event : TdEvent → Bool
  | TdEvent.button_destroy _ => true
  | TdEvent.profile_destroy _ => true
  | _ => false

/-- Counts the `driver_remove` events in a teardown trace. -/
def count_remove : List TdEvent → Nat
  | [] => 0
  | TdEvent.driver_remove :: rest => count_remove rest + 1
  | _ :: rest => count_remove rest

/-- Decides whether every child teardown event precedes the driver's
`remove` callback in a trace: after the first `driver_remove` no button or
profile teardown event may occur. -/
def remove_only_after_children (tr : List TdEvent) : Bool :=
  ((tr.dropWhile fun e => decide (e ≠ TdEvent.driver_remove)).drop 1).all
    fun e => !(child_event e)

/-- Decides whether some `driver_remove` event is immediately followed by
the `device_free` event. -/
def remove_immediately_before_free : List TdEvent → Bool
  | TdEvent.driver_remove :: TdEvent.device_free :: _ => true
  | _ :: rest => remove_immediately_before_free rest
  | [] => false

theorem count_remove_append (a b : List TdEvent) :
    count_remove (a ++ b) = count_remove a + count_remove b := by
  induction a with
  | nil => simp [count_remove]
  | cons e rest ih =>
    cases e <;> simp [count_remove, ih, Nat.add_right_comm]

theorem count_remove_buttons (bs : List ratbag_button) :
    count_remove (buttons_teardown bs) = 0 := by
  induction bs with
  | nil => rfl
  | cons b rest ih =>
    simp [buttons_teardown, count_remove_append, ih,
      ratbag_button_destroy, count_remove]

theorem count_remove_profiles {Ptr : Type} (ps : List (ratbag_profile Ptr)) :
    count_remove (profiles_teardown ps) = 0 := by
  induction ps with
  | nil => rfl
  | cons p rest ih =>
    simp [profiles_teardown, count_remove_append, ih,
      ratbag_profile_destroy, count_remove_buttons, count_remove]

theorem getLast_of_concat {α : Type} (l : List α) (a : α) :
    (l ++ [a]).getLast? = some a := by
  simp [List.getLast?_concat]

theorem device_refcount_eta {Ptr Obs : Type} (d : ratbag_device Ptr Obs)
    (x : Int) (h : x = d.refcount) : { d with refcount := x } = d := by
  cases d
  subst h
  rfl

theorem profile_refcount_eta {Ptr : Type} (p : ratbag_profile Ptr)
    (x : Int) (h : x = p.refcount) : { p with refcount := x } = p := by
  cases p
  subst h
  rfl

theorem button_refcount_eta (b : ratbag_button)
    (x : Int) (h : x = b.refcount) : { b with refcount := x } = b := by
  cases b
  subst h
  rfl

/-- Trivial injected interface used by the concrete fixtures. -/
def null_interface : ratbag_interface Nat Nat :=
  ⟨fun _ _ _ => 0, fun _ _ => 0⟩

/-- Driver with inert callbacks, used as the base of the concrete
fixtures. -/
def null_driver (Ptr : Type) : ratbag_driver Ptr :=
  ⟨"null", [], fun _ => -ENODEV, fun p _ => (p, []), fun _ => 0, 0, fun _ => 0,
   fun _ => false, fun b => (b, []), fun _ => 0, fun _ _ => 0⟩

/-- Concrete context fixture. -/
def null_context : ratbag Nat Nat :=
  ⟨null_interface, 0, 0, [], 1, 0, 0⟩

/-- Concrete button fixture with refcount 1. -/
def button0 : ratbag_button := ⟨1, 0, 0, 0, 0⟩

/-- Concrete profile fixture with refcount 1 owning one button. -/
def profile0 : ratbag_profile Nat := ⟨1, 0, 0, [button0], 0, 0, 800⟩

/-- Concrete identity fixture (a USB mouse-like id). -/
def dev_id0 : input_id := ⟨3, 0x1038, 0x1702, 0x100⟩

/-- Concrete device fixture with refcount 1 owning one profile. -/
def device0 : ratbag_device Nat Nat :=
  ⟨"device0", 0, 0, 0, 1, dev_id0, null_driver Nat, null_context,
   1, [profile0], 2, 0⟩

/-- Driver fixture whose `write_profile` always fails with -5. -/
def failing_write_driver : ratbag_driver Nat :=
  { null_driver Nat with name := "failing", write_profile := fun _ => -5 }

/-- Table entry matching `dev_id0` on the bus and wildcarding the rest. -/
def entry_notmine : ratbag_id :=
  ⟨⟨3, VENDOR_ANY, PRODUCT_ANY, VERSION_ANY⟩, 0⟩

/-- Table entry equal to `dev_id0` on every field. -/
def entry_exact : ratbag_id := ⟨dev_id0, 7⟩

/-- First registered driver fixture: its only entry matches but its probe
reports "not my device". -/
def driver_notmine : ratbag_driver Nat :=
  { null_driver Nat with
    name := "first", table_ids := [entry_notmine], probe := fun _ => -ENODEV }

/-- Second registered driver fixture: its entry matches exactly and its
probe succeeds. -/
def driver_second : ratbag_driver Nat :=
  { null_driver Nat with
    name := "second", table_ids := [entry_exact], probe := fun _ => 0 }

/-- Driver fixture that cannot read: its read callbacks leave the entity
unchanged and emit only a log message. -/
def logging_driver : ratbag_driver Nat :=
  { null_driver Nat with
    name := "logging",
    read_profile := fun p _ => (p, ["cannot read profile"]),
    read_button := fun b => (b, ["cannot read button"]) }

/-- Instrumented interface for observing the delegate calls: the userdata
pointer is itself a function, `open_restricted` applies the received
userdata to the received path and flags, and `close_restricted` returns the
received fd paired with the received userdata. -/
def probe_interface :
    ratbag_interface (String × Int → Int) (Int × (String × Int → Int)) :=
  ⟨fun path flags ud => ud (path, flags), fun fd ud => (fd, ud)⟩

/-- Context fixture carrying the instrumented interface and userdata `u`. -/
def probe_context (u : String × Int → Int) :
    ratbag (String × Int → Int) (Int × (String × Int → Int)) :=
  ⟨probe_interface, u, 0, [], 1, 0, 0⟩

/-- Device fixture owned by the instrumented context. -/
def probe_device (u : String × Int → Int) :
    ratbag_device (String × Int → Int) (Int × (String × Int → Int)) :=
  ⟨"probe", 0, 0, 0, 1, dev_id0, null_driver (String × Int → Int),
   probe_context u, 0, [], 0, u⟩

/-- All-wildcard table entry. -/
def wildcard_entry : input_id := ⟨BUS_ANY, VENDOR_ANY, PRODUCT_ANY, VERSION_ANY⟩

/-- Identity whose bus field is literally the sentinel value. -/
def ff_device : input_id := ⟨0xffff, 0x1038, 0x1702, 0x100⟩

/-- Table entry carrying the sentinel value in its bus field. -/
def ff_entry : input_id := ⟨0xffff, 0x1038, 0x1702, 0x100⟩

/-- C1: the activation entry point invokes the driver's `set_active_profile`
only when the immediately preceding `write_profile` call for that profile
returned success; when `write_profile` fails, `set_active_profile` never
appears in the call trace and the activation returns the write failure. -/
theorem claim_C1 {Ptr : Type} (drv : ratbag_driver Ptr)
    (profile : ratbag_profile Ptr) :
    (drv.write_profile profile < 0 →
      ratbag_device_set_active_profile drv profile
        = (drv.write_profile profile, [ActCall.write_profile profile.index]) ∧
      ActCall.set_active_profile profile.index ∉
        (ratbag_device_set_active_profile drv profile).2) ∧
    (∀ i, ActCall.set_active_profile i ∈
        (ratbag_device_set_active_profile drv profile).2 →
      0 ≤ drv.write_profile profile ∧
      (ratbag_device_set_active_profile drv profile).2
        = [ActCall.write_profile profile.index,
           ActCall.set_active_profile profile.index]) := by
  constructor
  · intro h
    simp [ratbag_device_set_active_profile, h]
  · intro i hi
    by_cases h : drv.write_profile profile < 0
    · simp [ratbag_device_set_active_profile, h] at hi
    · simp [ratbag_device_set_active_profile, h]
      omega

/-- C1 witness: with a driver whose `write_profile` fails with -5, the
activation returns -5 and `set_active_profile` is never invoked. -/
theorem claim_C1_witness :
    ratbag_device_set_active_profile failing_write_driver profile0
      = (-5, [ActCall.write_profile 0]) ∧
    ActCall.set_active_profile 0 ∉
      (ratbag_device_set_active_profile failing_write_driver profile0).2 :=
  (claim_C1 failing_write_driver profile0).1 (by decide)

/-- C2: a fatal (non `-ENODEV`) probe outcome in the head driver's table
scan aborts the whole registry scan as a probe error; an exhausted table
falls through to the remaining drivers; a matching entry whose probe
reports `-ENODEV` continues with the remaining table entries; and in the
two-driver scenario where the first driver's only matching entry probes
"not mine" and the second driver's entry matches exactly with a successful
probe, the second driver is bound. -/
theorem claim_C2 {Ptr : Type} :
    (∀ (drv : ratbag_driver Ptr) (rest : List (ratbag_driver Ptr))
       (dev : input_id) (c : Int),
       scan_table drv.probe dev drv.table_ids = TableScan.fatal c →
       find_driver (drv :: rest) dev = FindResult.probeError c) ∧
    (∀ (drv : ratbag_driver Ptr) (rest : List (ratbag_driver Ptr))
       (dev : input_id),
       scan_table drv.probe dev drv.table_ids = TableScan.exhausted →
       find_driver (drv :: rest) dev = find_driver rest dev) ∧
    (∀ (probe : ratbag_id → Int) (dev : input_id) (entry : ratbag_id)
       (rest : List ratbag_id),
       ratbag_match_id dev entry.id = true → probe entry = -ENODEV →
       scan_table probe dev (entry :: rest) = scan_table probe dev rest) ∧
    (∀ (d1 d2 : ratbag_driver Ptr) (dev : input_id) (e1 e2 : ratbag_id),
       d1.table_ids = [e1] → ratbag_match_id dev e1.id = true →
       d1.probe e1 = -ENODEV →
       d2.table_ids = [e2] → e2.id = dev → 0 ≤ d2.probe e2 →
       find_driver [d1, d2] dev = FindResult.bound d2.name) := by
  refine ⟨?_, ?_, ?_, ?_⟩
  · intro drv rest dev c h
    simp [find_driver, h]
  · intro drv rest dev h
    simp [find_driver, h]
  · intro probe dev entry rest h1 h2
    simp [scan_table, h1, h2]
  · intro d1 d2 dev e1 e2 hT1 hm1 hp1 hT2 he2 hp2
    have hscan1 : scan_table d1.probe dev d1.table_ids = TableScan.exhausted := by
      rw [hT1]
      simp [scan_table, hm1, hp1]
    have hne : d2.probe e2 ≠ -ENODEV := by
      simp only [ENODEV]
      omega
    have hnn : ¬ d2.probe e2 < 0 := by omega
    have hscan2 : scan_table d2.probe dev d2.table_ids = TableScan.bound := by
      rw [hT2]
      simp [scan_table, he2, ratbag_match_id_refl, hne, hnn]
    simp [find_driver, hscan1, hscan2]

/-- C2 witness: the concrete two-driver scenario binds the second driver. -/
theorem claim_C2_witness :
    find_driver [driver_notmine, driver_second] dev_id0
      = FindResult.bound "second" :=
  (@claim_C2 Nat).2.2.2 driver_notmine driver_second dev_id0
    entry_notmine entry_exact rfl (by decide) rfl rfl rfl (by decide)

/-- C3: identity matching is field-wise over bus, vendor, product and
version: an entry matches a candidate exactly when every entry field is
the wildcard sentinel or equals the candidate's field, and a non-wildcard
entry field matches only its exactly equal candidate value.  Only the
entry (table) side is tested for wildcards. -/
theorem claim_C3 (dev entry : input_id) :
    (ratbag_match_id dev entry = true ↔
      ((entry.bustype = BUS_ANY ∨ entry.bustype = dev.bustype) ∧
       (entry.vendor = VENDOR_ANY ∨ entry.vendor = dev.vendor) ∧
       (entry.product = PRODUCT_ANY ∨ entry.product = dev.product) ∧
       (entry.version = VERSION_ANY ∨ entry.version = dev.version))) ∧
    (entry.bustype ≠ BUS_ANY → ratbag_match_id dev entry = true →
      entry.bustype = dev.bustype) ∧
    (entry.vendor ≠ VENDOR_ANY → ratbag_match_id dev entry = true →
      entry.vendor = dev.vendor) ∧
    (entry.product ≠ PRODUCT_ANY → ratbag_match_id dev entry = true →
      entry.product = dev.product) ∧
    (entry.version ≠ VERSION_ANY → ratbag_match_id dev entry = true →
      entry.version = dev.version) := by
  simp only [ratbag_match_id, Bool.and_eq_true, Bool.or_eq_true,
    decide_eq_true_eq]
  tauto

/-- C3 witness: the all-wildcard entry matches the concrete identity. -/
theorem claim_C3_witness : ratbag_match_id dev_id0 wildcard_entry = true :=
  (claim_C3 dev_id0 wildcard_entry).1.mpr (by decide)

/-- C4 counterexample: for the concrete device with one profile owning one
button, the modelled teardown runs the driver's `remove` callback first, so
`remove` is not invoked after the children are torn down, and the child
teardown events separate it from the final memory release. -/
theorem claim_C4_counterexample :
    ratbag_device_destroy device0
      = [TdEvent.driver_remove, TdEvent.button_destroy 0,
         TdEvent.profile_destroy 0, TdEvent.device_free] ∧
    remove_only_after_children (ratbag_device_destroy device0) = false ∧
    remove_immediately_before_free (ratbag_device_destroy device0) = false := by
  refine ⟨rfl, rfl, rfl⟩

/-- C4 (amended): every device teardown invokes the driver's `remove`
callback exactly once — never twice and never skipped — as the very first
teardown step, before the device's profiles and buttons are torn down, and
the device's memory release is the final step. -/
theorem claim_C4 {Ptr Obs : Type} (device : ratbag_device Ptr Obs) :
    count_remove (ratbag_device_destroy device) = 1 ∧
    (ratbag_device_destroy device).head? = some TdEvent.driver_remove ∧
    (ratbag_device_destroy device).getLast? = some TdEvent.device_free := by
  refine ⟨?_, rfl, ?_⟩
  · simp [ratbag_device_destroy, count_remove, count_remove_append,
      count_remove_profiles]
  · show (TdEvent.driver_remove ::
      (profiles_teardown device.profiles ++ [TdEvent.device_free])).getLast? = _
    rw [← List.cons_append]
    exact getLast_of_concat _ _

/-- C5: `ratbag_open_path` returns exactly the result of the owning
context's injected `open_restricted` on the given path and flags (together
with the context's userdata), and `ratbag_close_fd` forwards the fd to the
context's injected `close_restricted`. -/
theorem claim_C5 {Ptr Obs : Type} (device : ratbag_device Ptr Obs)
    (path : String) (flags fd : Int) :
    ratbag_open_path device path flags
      = device.ratbag.interface.open_restricted path flags
          device.ratbag.userdata ∧
    ratbag_close_fd device fd
      = device.ratbag.interface.close_restricted fd device.ratbag.userdata :=
  ⟨rfl, rfl⟩

/-- C6: setting the driver-private pointer and reading it back returns
exactly the stored pointer, for devices and for profiles, for any pointer
type — the framework neither inspects nor alters the value. -/
theorem claim_C6 {Ptr Obs : Type} (device : ratbag_device Ptr Obs)
    (profile : ratbag_profile Ptr) (p q : Ptr) :
    ratbag_get_drv_data (ratbag_set_drv_data device p) = p ∧
    ratbag_profile_get_drv_data (ratbag_profile_set_drv_data profile q) = q :=
  ⟨rfl, rfl⟩

/-- C7: the framework's profile and button reads forward to the driver's
`read_profile`/`read_button` callbacks, whose modelled result — mirroring
the `void` C return type — consists only of the updated entity and the
messages sent to the logging sink, with no error component; in particular a
driver that cannot read and leaves the entity unchanged yields an entity
with exactly its prior fields. -/
theorem claim_C7 {Ptr : Type} (drv : ratbag_driver Ptr)
    (profile : ratbag_profile Ptr) (index : Nat) (button : ratbag_button) :
    (ratbag_device_read_profile drv profile index
      = drv.read_profile profile index) ∧
    (ratbag_device_read_button drv button = drv.read_button button) ∧
    ((drv.read_profile profile index).1 = profile →
      (ratbag_device_read_profile drv profile index).1 = profile) ∧
    ((drv.read_button button).1 = button →
      (ratbag_device_read_button drv button).1 = button) :=
  ⟨rfl, rfl, fun h => h, fun h => h⟩

/-- C7 witness: with the driver that cannot read (log-only callbacks), the
read operations return the entities with their prior fields. -/
theorem claim_C7_witness :
    (ratbag_device_read_profile logging_driver profile0 0).1 = profile0 ∧
    (ratbag_device_read_button logging_driver button0).1 = button0 :=
  ⟨(claim_C7 logging_driver profile0 0 button0).2.2.1 rfl,
   (claim_C7 logging_driver profile0 0 button0).2.2.2 rfl⟩

/-- C8: on any device, profile or button whose refcount is at least one,
`ref()` followed by `unref()` leaves the entity unchanged — the same
children remain reachable — and fires no teardown event (in particular the
driver's `remove` callback is not invoked). -/
theorem claim_C8 {Ptr Obs : Type} (device : ratbag_device Ptr Obs)
    (profile : ratbag_profile Ptr) (button : ratbag_button)
    (hd : 1 ≤ device.refcount) (hp : 1 ≤ profile.refcount)
    (hb : 1 ≤ button.refcount) :
    ratbag_device_unref (ratbag_device_ref device) = (some device, []) ∧
    ratbag_profile_unref (ratbag_profile_ref profile) = (some profile, []) ∧
    ratbag_button_unref (ratbag_button_ref button) = (some button, []) := by
  refine ⟨?_, ?_, ?_⟩
  · simp only [ratbag_device_unref, ratbag_device_ref]
    rw [if_neg (by omega)]
    rw [device_refcount_eta device (device.refcount + 1 - 1) (by omega)]
  · simp only [ratbag_profile_unref, ratbag_profile_ref]
    rw [if_neg (by omega)]
    rw [profile_refcount_eta profile (profile.refcount + 1 - 1) (by omega)]
  · simp only [ratbag_button_unref, ratbag_button_ref]
    rw [if_neg (by omega)]
    rw [button_refcount_eta button (button.refcount + 1 - 1) (by omega)]

/-- C8 witness: the round trip on the concrete fixtures with refcount 1. -/
theorem claim_C8_witness :
    ratbag_device_unref (ratbag_device_ref device0) = (some device0, []) ∧
    ratbag_profile_unref (ratbag_profile_ref profile0) = (some profile0, []) ∧
    ratbag_button_unref (ratbag_button_ref button0) = (some button0, []) :=
  claim_C8 device0 profile0 button0 (by decide) (by decide) (by decide)

/-- C9: the delegate calls forward a third argument: with the instrumented
context whose `open_restricted` applies the userdata it receives to the
path and flags it receives, `ratbag_open_path` returns the context's
current userdata applied to exactly that path and flags, and
`ratbag_close_fd` hands `close_restricted` exactly the fd and the context's
current userdata. -/
theorem claim_C9 (u : String × Int → Int) (path : String) (flags fd : Int) :
    ratbag_open_path (probe_device u) path flags = u (path, flags) ∧
    ratbag_close_fd (probe_device u) fd = (fd, u) :=
  ⟨rfl, rfl⟩

/-- C10: the four wildcard sentinels are the same concrete value 0xffff,
and consequently an identity whose bus, vendor, product or version field is
literally 0xffff can never be matched exclusively: any entry matching it
also matches every other value of that field. -/
theorem claim_C10 (dev entry : input_id) (b : Nat) :
    (BUS_ANY = 0xffff ∧ VENDOR_ANY = 0xffff ∧ PRODUCT_ANY = 0xffff ∧
      VERSION_ANY = 0xffff) ∧
    (dev.bustype = 0xffff → ratbag_match_id dev entry = true →
      ratbag_match_id { dev with bustype := b } entry = true) ∧
    (dev.vendor = 0xffff → ratbag_match_id dev entry = true →
      ratbag_match_id { dev with vendor := b } entry = true) ∧
    (dev.product = 0xffff → ratbag_match_id dev entry = true →
      ratbag_match_id { dev with product := b } entry = true) ∧
    (dev.version = 0xffff → ratbag_match_id dev entry = true →
      ratbag_match_id { dev with version := b } entry = true) := by
  refine ⟨⟨rfl, rfl, rfl, rfl⟩, ?_, ?_, ?_, ?_⟩ <;>
    intro hf hm <;>
    simp only [ratbag_match_id, BUS_ANY, VENDOR_ANY, PRODUCT_ANY, VERSION_ANY,
      Bool.and_eq_true, Bool.or_eq_true, decide_eq_true_eq] at hm ⊢ <;>
    obtain ⟨⟨⟨h1, h2⟩, h3⟩, h4⟩ := hm
  · refine ⟨⟨⟨?_, h2⟩, h3⟩, h4⟩
    rcases h1 with h | h
    · exact Or.inl h
    · exact Or.inl (h.trans hf)
  · refine ⟨⟨⟨h1, ?_⟩, h3⟩, h4⟩
    rcases h2 with h | h
    · exact Or.inl h
    · exact Or.inl (h.trans hf)
  · refine ⟨⟨⟨h1, h2⟩, ?_⟩, h4⟩
    rcases h3 with h | h
    · exact Or.inl h
    · exact Or.inl (h.trans hf)
  · refine ⟨⟨⟨h1, h2⟩, h3⟩, ?_⟩
    rcases h4 with h | h
    · exact Or.inl h
    · exact Or.inl (h.trans hf)

/-- C10 witness: an entry whose bus field is 0xffff matches the identity
with bus 0xffff, and therefore also matches the same identity with bus 5. -/
theorem claim_C10_witness :
    ratbag_match_id { ff_device with bustype := 5 } ff_entry = true :=
  (claim_C10 ff_device ff_entry 5).2.1 rfl (by decide)

end Libratbag
